import Mathlib

/-!
Verification of the keep-alive liveness prober (`src/tools/keep-alive.js`).

The script resolves a target base URL from the environment (line 6), fixes a
ten-minute ping interval (line 7) and a health path (line 8), defines an async
function `pingServer` that issues one GET request and classifies the outcome
inside a try/catch (lines 10-27), prints two startup banner lines
(lines 30-31), registers `setInterval(pingServer, PING_INTERVAL)` (line 33)
and performs one immediate probe (line 36).

Shallow embedding choices: the environment variable `RAILWAY_URL` is a
parameter of type `Option String` (`none` = unset); the network is a function
from the issued request to a `FetchResult` (a resolved response carrying a
status, or a transport-level rejection carrying a message); timestamps are
opaque strings supplied per tick; `console` output is a list of log entries.
A tick that would let an exception escape is an `Except.error`; the try/catch
structure of `pingServer` is modelled by `pingBody` (the try block, which can
end in `Except.error`) wrapped by `pingServer` (the catch clause).
-/

/-- Outcome of the `fetch` call as observed by `pingServer`: either the
promise resolves with a response carrying an HTTP status, or it rejects with
a transport-level failure message. -/
inductive FetchResult where
  | response (status : Nat)
  | failure (message : String)
deriving DecidableEq

/-- The outbound HTTP request built at line 12-17 of the script. -/
structure Request where
  method : String
  url : String
  headers : List (String × String)
deriving DecidableEq

/-- One console line emitted by a probe tick: `console.log` of the success
template (line 20), `console.log` of the warning template (line 22), or
`console.error` of the failure template (line 25). -/
inductive LogEntry where
  | success (ts : String)
  | warning (ts : String) (status : Nat)
  | error (ts : String) (message : String)
deriving DecidableEq

/-- The exact text of each console line, following the template literals at
lines 20, 22 and 25 of the script. -/
def LogEntry.render : LogEntry → String
  | .success ts => "✅ [" ++ ts ++ "] Server is alive"
  | .warning ts status => "⚠️ [" ++ ts ++ "] Server responded with " ++ toString status
  | .error ts message => "❌ [" ++ ts ++ "] Failed to ping server: " ++ message

/-- JavaScript `a || b` on a possibly-undefined string: the right operand is
chosen when the left is undefined or empty (both falsy). -/
def jsOrString (a : Option String) (b : String) : String :=
  match a with
  | none => b
  | some s => if s = "" then b else s

/-- Line 6: `const RAILWAY_URL = process.env.RAILWAY_URL || 'https://your-app.railway.app'`.
The environment variable is the `Option String` parameter. -/
def RAILWAY_URL (env : Option String) : String :=
  jsOrString env "https://your-app.railway.app"

/-- Line 7: `const PING_INTERVAL = 10 * 60 * 1000` (milliseconds). -/
def PING_INTERVAL : Nat := 10 * 60 * 1000

/-- Line 8: `const HEALTH_ENDPOINT = '/health'`. -/
def HEALTH_ENDPOINT : String := "/health"

/-- The request issued by the single `fetch` call (lines 12-17): a GET to
the base URL with the health path appended, carrying the User-Agent header. -/
def pingRequest (env : Option String) : Request :=
  { method := "GET"
    url := RAILWAY_URL env ++ HEALTH_ENDPOINT
    headers := [("User-Agent", "KeepAlive-Bot/1.0")] }

/-- The WHATWG `Response.ok` getter used at line 19: true exactly when the
status is in the inclusive range 200-299. -/
def responseOk (status : Nat) : Bool :=
  decide (200 ≤ status) && decide (status < 300)

/-- Result of one completed probe tick: the requests it issued and the
console lines it emitted. -/
structure TickResult where
  requests : List Request
  logs : List LogEntry
deriving DecidableEq

/-- The try block of `pingServer` (lines 11-23): await the fetch of
`pingRequest`; a rejected promise propagates as `Except.error` (to be caught),
a resolved response is classified by `responseOk` into the success or the
warning line. -/
def pingBody (env : Option String) (ts : String) (net : Request → FetchResult) :
    Except String TickResult :=
  let req := pingRequest env
  match net req with
  | FetchResult.failure message => Except.error message
  | FetchResult.response status =>
    if responseOk status then
      Except.ok ⟨[req], [LogEntry.success ts]⟩
    else
      Except.ok ⟨[req], [LogEntry.warning ts status]⟩

/-- The whole of `pingServer` (lines 10-27): the try block with its catch
clause (lines 24-26), which turns any thrown failure into the error console
line. The codomain is still `Except String` so that an escaping exception
would be representable; the theorems show none escapes. -/
def pingServer (env : Option String) (ts : String) (net : Request → FetchResult) :
    Except String TickResult :=
  match pingBody env ts net with
  | Except.ok r => Except.ok r
  | Except.error message => Except.ok ⟨[pingRequest env], [LogEntry.error ts message]⟩

/-- Start time (ms since process start) of probe number `n`: probe 0 is the
immediate call at line 36 (time 0); probe `n+1` is the `setInterval` firing
at line 33, one fixed period after the previous start. -/
def probeStart : Nat → Nat
  | 0 => 0
  | n + 1 => probeStart n + PING_INTERVAL

/-- The run of the script as a trace indexed by probe number: each tick gets
its own timestamp and its own view of the network, and the start time comes
from the unconditional timer (`setInterval` never consults the callback's
outcome). -/
def runTrace (env : Option String) (net : Nat → Request → FetchResult)
    (tsq : Nat → String) (n : Nat) : Nat × Except String TickResult :=
  (probeStart n, pingServer env (tsq n) (net n))

/-- Probe `n` is in flight at time `t` when `t` lies between its start and
the completion of its awaited fetch, `latency n` milliseconds later. -/
def inFlight (latency : Nat → Nat) (n t : Nat) : Bool :=
  decide (probeStart n ≤ t) && decide (t < probeStart n + latency n)

/-- The process-wide configuration the spec names: target URL, interval and
health path, all fixed at lines 6-8 before any probe runs. -/
structure Config where
  url : String
  interval : Nat
  healthPath : String
deriving DecidableEq

/-- The configuration as resolved once at startup from the environment. -/
def startupConfig (env : Option String) : Config :=
  ⟨RAILWAY_URL env, PING_INTERVAL, HEALTH_ENDPOINT⟩

/-- The two banner lines printed at lines 30-31, before any probe output. -/
def bannerLogs (env : Option String) : List String :=
  ["🚀 Starting keep-alive for " ++ RAILWAY_URL env,
   "📡 Pinging every " ++ toString (PING_INTERVAL / 60000) ++ " minutes"]

/-- The console lines of the first probe tick, rendered. -/
def tickLogLines (env : Option String) (ts : String) (net : Request → FetchResult) :
    List String :=
  match pingServer env ts net with
  | Except.ok r => r.logs.map LogEntry.render
  | Except.error _ => []

/-- Everything the process prints from startup through the first probe's
outcome: the banner (lines 30-31) and then the first tick's lines (line 36). -/
def startupOutput (env : Option String) (ts : String) (net : Request → FetchResult) :
    List String :=
  bannerLogs env ++ tickLogLines env ts net

theorem pingServer_cases (env : Option String) (ts : String) (net : Request → FetchResult) :
    pingServer env ts net =
      match net (pingRequest env) with
      | FetchResult.response status =>
        if responseOk status then
          Except.ok ⟨[pingRequest env], [LogEntry.success ts]⟩
        else
          Except.ok ⟨[pingRequest env], [LogEntry.warning ts status]⟩
      | FetchResult.failure message =>
        Except.ok ⟨[pingRequest env], [LogEntry.error ts message]⟩ := by
  unfold pingServer pingBody
  cases hnet : net (pingRequest env) with
  | response status => cases h : responseOk status <;> simp [hnet, h]
  | failure message => simp [hnet]

theorem probeStart_eq (n : Nat) : probeStart n = n * PING_INTERVAL := by
  induction n with
  | zero => rfl
  | succ k ih => rw [probeStart, ih, Nat.succ_mul]

theorem pingServer_requests (env : Option String) (ts : String) (net : Request → FetchResult)
    (r : TickResult) (hr : pingServer env ts net = Except.ok r) :
    r.requests = [pingRequest env] := by
  rw [pingServer_cases] at hr
  cases hnet : net (pingRequest env) with
  | response status =>
    rw [hnet] at hr
    simp at hr
    split at hr <;> (simp at hr; subst hr; rfl)
  | failure message =>
    rw [hnet] at hr
    simp at hr
    subst hr
    rfl

/-- C1: a probe tick classifies its outcome and emits exactly one console
line with the tick's timestamp — a 2xx status yields only the success line,
a non-2xx status yields only the warning line (whose text carries the status
code), and a transport failure yields only the error line (whose text carries
the failure message). -/
theorem C1_outcome_classification (env : Option String) (ts : String) (s : Nat) (m : String) :
    (200 ≤ s → s < 300 →
      pingServer env ts (fun _ => FetchResult.response s) =
        Except.ok ⟨[pingRequest env], [LogEntry.success ts]⟩) ∧
    (¬ (200 ≤ s ∧ s < 300) →
      pingServer env ts (fun _ => FetchResult.response s) =
        Except.ok ⟨[pingRequest env], [LogEntry.warning ts s]⟩) ∧
    pingServer env ts (fun _ => FetchResult.failure m) =
      Except.ok ⟨[pingRequest env], [LogEntry.error ts m]⟩ ∧
    ts.data <:+: (LogEntry.success ts).render.data ∧
    (toString s).data <:+: (LogEntry.warning ts s).render.data ∧
    ts.data <:+: (LogEntry.warning ts s).render.data ∧
    m.data <:+: (LogEntry.error ts m).render.data ∧
    ts.data <:+: (LogEntry.error ts m).render.data := by
  refine ⟨?_, ?_, ?_, ?_, ?_, ?_, ?_, ?_⟩
  · intro h1 h2
    rw [pingServer_cases]
    simp [responseOk, h1, h2]
  · intro h
    rw [pingServer_cases]
    have : responseOk s = false := by
      simp [responseOk]
      omega
    simp [this]
  · rw [pingServer_cases]
  · exact ⟨"✅ [".data, "] Server is alive".data,
      by simp [LogEntry.render, String.data_append]⟩
  · exact ⟨"⚠️ [".data ++ ts.data ++ "] Server responded with ".data, [],
      by simp [LogEntry.render, String.data_append]⟩
  · exact ⟨"⚠️ [".data, "] Server responded with ".data ++ (toString s).data,
      by simp [LogEntry.render, String.data_append]⟩
  · exact ⟨"❌ [".data ++ ts.data ++ "] Failed to ping server: ".data, [],
      by simp [LogEntry.render, String.data_append]⟩
  · exact ⟨"❌ [".data, "] Failed to ping server: ".data ++ m.data,
      by simp [LogEntry.render, String.data_append]⟩

theorem C1_outcome_classification_witness :
    ((200 : Nat) ≤ 200 ∧ (200 : Nat) < 300) ∧
    ¬ ((200 : Nat) ≤ 503 ∧ (503 : Nat) < 300) ∧
    pingServer none "T" (fun _ => FetchResult.response 200) =
      Except.ok ⟨[pingRequest none], [LogEntry.success "T"]⟩ ∧
    pingServer none "T" (fun _ => FetchResult.response 503) =
      Except.ok ⟨[pingRequest none], [LogEntry.warning "T" 503]⟩ :=
  ⟨⟨by decide, by decide⟩, by decide,
    (C1_outcome_classification none "T" 200 "").1 (by decide) (by decide),
    (C1_outcome_classification none "T" 503 "").2.1 (by decide)⟩

/-- C2: for every combination of network and HTTP outcomes, `pingServer`
returns normally (nothing is re-raised out of the tick), and any failure
thrown inside the try block is swallowed by the catch clause into a single
error console line. -/
theorem C2_fault_isolated (env : Option String) (ts : String) (net : Request → FetchResult) :
    (∃ r, pingServer env ts net = Except.ok r) ∧
    (∀ msg, pingBody env ts net = Except.error msg →
      pingServer env ts net = Except.ok ⟨[pingRequest env], [LogEntry.error ts msg]⟩) := by
  constructor
  · rw [pingServer_cases]
    cases net (pingRequest env) with
    | response status => cases h : responseOk status <;> simp [h]
    | failure message => exact ⟨_, rfl⟩
  · intro msg h
    unfold pingServer
    rw [h]

theorem C2_fault_isolated_witness :
    pingBody none "T" (fun _ => FetchResult.failure "ECONNREFUSED") =
      Except.error "ECONNREFUSED" ∧
    pingServer none "T" (fun _ => FetchResult.failure "ECONNREFUSED") =
      Except.ok ⟨[pingRequest none], [LogEntry.error "T" "ECONNREFUSED"]⟩ :=
  ⟨rfl, (C2_fault_isolated none "T" (fun _ => FetchResult.failure "ECONNREFUSED")).2
    "ECONNREFUSED" rfl⟩

/-- C5: the probe interval constant is 600000 milliseconds (ten minutes),
and every interval-scheduled probe starts exactly that long after the
previous probe's start. -/
theorem C5_ping_interval (n : Nat) :
    PING_INTERVAL = 600000 ∧
    probeStart (n + 1) - probeStart n = PING_INTERVAL := by
  refine ⟨rfl, ?_⟩
  rw [probeStart]
  omega

/-- C9: with RAILWAY_URL set to the empty string (falsy in JavaScript, though
not unset), the resolved base URL is still the placeholder default. -/
theorem C9_empty_env_falls_back :
    RAILWAY_URL (some "") = "https://your-app.railway.app" := rfl

/-- C3: probe 0 starts at offset 0 (the immediate call at startup), each
later probe starts exactly one fixed interval after the previous one, and the
start time of a probe is the same whatever outcomes the network produced for
any tick — no outcome halts, reschedules, retries early or backs off. -/
theorem C3_fixed_schedule (env : Option String) (net net2 : Nat → Request → FetchResult)
    (tsq : Nat → String) (n : Nat) :
    probeStart 0 = 0 ∧
    probeStart (n + 1) = probeStart n + PING_INTERVAL ∧
    (runTrace env net tsq n).1 = (runTrace env net2 tsq n).1 := by
  refine ⟨rfl, ?_, rfl⟩
  rw [probeStart]

/-- C4 as stated is false on this code: `setInterval` fires on a fixed
cadence whether or not the prior fetch has completed, so a probe whose
latency is twice the interval is still in flight when the next probe starts
— two distinct probes in flight at the same instant. -/
theorem C4_overlap_counterexample :
    inFlight (fun _ => 2 * PING_INTERVAL) 0 PING_INTERVAL = true ∧
    inFlight (fun _ => 2 * PING_INTERVAL) 1 PING_INTERVAL = true ∧
    (0 : Nat) ≠ 1 := by
  refine ⟨by decide, by decide, by decide⟩

/-- C4 (amended): at most one probe is in flight at a time provided every
probe's latency is at most the interval; the timer is a single fixed-cadence
loop that never waits for completion, so overlap occurs exactly when a
probe's latency exceeds the interval. -/
theorem C4_no_overlap_when_latency_bounded (latency : Nat → Nat)
    (h : ∀ k, latency k ≤ PING_INTERVAL) (m n t : Nat)
    (hm : inFlight latency m t = true) (hn : inFlight latency n t = true) :
    m = n := by
  have key : ∀ j, inFlight latency j t = true → t / PING_INTERVAL = j := by
    intro j hj
    unfold inFlight at hj
    rw [Bool.and_eq_true, decide_eq_true_eq, decide_eq_true_eq] at hj
    obtain ⟨h1, h2⟩ := hj
    have hlo : j * PING_INTERVAL ≤ t := by rw [← probeStart_eq]; exact h1
    have hhi : t < (j + 1) * PING_INTERVAL := by
      calc t < probeStart j + latency j := h2
        _ ≤ probeStart j + PING_INTERVAL := Nat.add_le_add_left (h j) _
        _ = (j + 1) * PING_INTERVAL := by rw [probeStart_eq, Nat.succ_mul]
    exact Nat.div_eq_of_lt_le hlo hhi
  rw [← key m hm, key n hn]

theorem C4_no_overlap_when_latency_bounded_witness :
    ((1 : Nat) ≤ PING_INTERVAL) ∧
    inFlight (fun _ => (1 : Nat)) 0 0 = true ∧
    (0 : Nat) = 0 := by
  have h1 : (1 : Nat) ≤ PING_INTERVAL := by decide
  exact ⟨h1, by decide,
    C4_no_overlap_when_latency_bounded (fun _ => 1) (fun _ => h1) 0 0 0
      (by decide) (by decide)⟩

/-- C6: whatever the tick's outcome, the requests issued by a probe are
exactly one GET to the base URL with the literal health path appended,
carrying a User-Agent header whose value is a client name and a version
joined by a slash. -/
theorem C6_single_get_request (env : Option String) (ts : String) (net : Request → FetchResult) :
    (∀ r, pingServer env ts net = Except.ok r → r.requests = [pingRequest env]) ∧
    (pingRequest env).method = "GET" ∧
    (pingRequest env).url = RAILWAY_URL env ++ "/health" ∧
    (pingRequest env).headers = [("User-Agent", "KeepAlive-Bot" ++ "/" ++ "1.0")] := by
  exact ⟨fun r hr => pingServer_requests env ts net r hr, rfl, rfl, rfl⟩

theorem C6_single_get_request_witness :
    pingServer none "T" (fun _ => FetchResult.response 200) =
      Except.ok ⟨[pingRequest none], [LogEntry.success "T"]⟩ ∧
    (⟨[pingRequest none], [LogEntry.success "T"]⟩ : TickResult).requests =
      [pingRequest none] :=
  ⟨rfl, (C6_single_get_request none "T" (fun _ => FetchResult.response 200)).1
    ⟨[pingRequest none], [LogEntry.success "T"]⟩ rfl⟩

/-- C7: the base URL is a value resolved once from the environment: an unset
environment variable yields the documented placeholder host, and any
non-empty value is taken verbatim. -/
theorem C7_url_resolution :
    RAILWAY_URL none = "https://your-app.railway.app" ∧
    ∀ s : String, s ≠ "" → RAILWAY_URL (some s) = s := by
  refine ⟨rfl, ?_⟩
  intro s hs
  simp [RAILWAY_URL, jsOrString, hs]

theorem C7_url_resolution_witness :
    "https://real.example" ≠ "" ∧
    RAILWAY_URL (some "https://real.example") = "https://real.example" :=
  ⟨by decide, C7_url_resolution.2 "https://real.example" (by decide)⟩

/-- C8: the configuration resolved at startup is what every tick observes —
each tick's issued request targets the startup URL with the startup health
path, and consecutive tick starts are separated by the startup interval. The
embedding is pure, so no tick mutates any state another tick reads. -/
theorem C8_config_immutable (env : Option String) (net : Nat → Request → FetchResult)
    (tsq : Nat → String) (n : Nat) :
    (∀ r, (runTrace env net tsq n).2 = Except.ok r →
      r.requests.map Request.url =
        [(startupConfig env).url ++ (startupConfig env).healthPath]) ∧
    (runTrace env net tsq (n + 1)).1 - (runTrace env net tsq n).1 =
      (startupConfig env).interval := by
  constructor
  · intro r hr
    rw [pingServer_requests env (tsq n) (net n) r hr]
    rfl
  · show probeStart (n + 1) - probeStart n = (startupConfig env).interval
    rw [probeStart]
    show probeStart n + PING_INTERVAL - probeStart n = PING_INTERVAL
    omega

theorem C8_config_immutable_witness :
    (runTrace none (fun _ _ => FetchResult.response 200) (fun _ => "T") 0).2 =
      Except.ok ⟨[pingRequest none], [LogEntry.success "T"]⟩ ∧
    (⟨[pingRequest none], [LogEntry.success "T"]⟩ : TickResult).requests.map Request.url =
      [(startupConfig none).url ++ (startupConfig none).healthPath] :=
  ⟨rfl, (C8_config_immutable none (fun _ _ => FetchResult.response 200) (fun _ => "T") 0).1
    ⟨[pingRequest none], [LogEntry.success "T"]⟩ rfl⟩

/-- C10: before the first probe's outcome lines, the process prints exactly
two banner lines — the first carrying the resolved base URL, the second
carrying the interval in minutes (the text 10 minutes) — and everything after
them is the first tick's output. -/
theorem C10_startup_banner (env : Option String) (ts : String) (net : Request → FetchResult) :
    ∃ rest,
      startupOutput env ts net =
        ("🚀 Starting keep-alive for " ++ RAILWAY_URL env) ::
        ("📡 Pinging every " ++ toString (PING_INTERVAL / 60000) ++ " minutes") :: rest ∧
      (bannerLogs env).length = 2 ∧
      rest = tickLogLines env ts net ∧
      (RAILWAY_URL env).data <:+:
        ("🚀 Starting keep-alive for " ++ RAILWAY_URL env).data ∧
      "10 minutes".data <:+:
        ("📡 Pinging every " ++ toString (PING_INTERVAL / 60000) ++ " minutes").data := by
  refine ⟨tickLogLines env ts net, rfl, rfl, rfl, ?_, ?_⟩
  · exact ⟨"🚀 Starting keep-alive for ".data, [],
      by simp [String.data_append]⟩
  · exact ⟨"📡 Pinging every ".data, [],
      by simp [String.data_append]; decide⟩
